import Mathlib

/-!
Verification of the MGNREGA-DATA ingestion/reconciliation pipeline.

This file shallowly embeds the pipeline code of the repository:
  * `apps/performance/services.py` (class `MGNREGADataService`)
  * `apps/performance/management/commands/sync_mgnrega_data.py` (class `Command`)
  * `apps/districts/models.py` (models `District`, `MGNREGAData`)

Python strings are modelled as Lean `String` with ASCII case conversion
(the feed is ASCII).  Python dynamic values are modelled by `PyVal`
(`None`, `int`, `str`, and an opaque non-numeric object), Python
exceptions by `PyExc` and `Except`.  Machine floats that the code builds
via `float(...)` are modelled exactly as rationals, plus explicit
infinity/NaN values for the overflow behaviour of `float`/`int`
(rounding of finite values to binary floating point is not modelled; the
inputs exercised here are exact).  The database table backing
`MGNREGAData` is modelled as a list of rows.
-/

namespace MG

/-! ### ASCII character and string helpers (models of Python `str` methods) -/

def isDigitCh (c : Char) : Bool := 48 ≤ c.toNat && c.toNat ≤ 57

def digitVal (c : Char) : Nat := c.toNat - 48

def isUpperCh (c : Char) : Bool := 65 ≤ c.toNat && c.toNat ≤ 90

def isLowerCh (c : Char) : Bool := 97 ≤ c.toNat && c.toNat ≤ 122

/-- Model of Python `str.lower` at character level (ASCII). -/
def lowerCh (c : Char) : Char := if isUpperCh c then Char.ofNat (c.toNat + 32) else c

/-- Model of Python `str.upper` at character level (ASCII). -/
def upperCh (c : Char) : Char := if isLowerCh c then Char.ofNat (c.toNat - 32) else c

/-- Python whitespace characters recognised by `str.strip`. -/
def isWsCh (c : Char) : Bool :=
  c.toNat = 32 || c.toNat = 9 || c.toNat = 10 || c.toNat = 13 || c.toNat = 11 || c.toNat = 12

def asciiLower (s : String) : String := ⟨s.data.map lowerCh⟩

def asciiUpper (s : String) : String := ⟨s.data.map upperCh⟩

def stripChars (cs : List Char) : List Char :=
  ((cs.dropWhile isWsCh).reverse.dropWhile isWsCh).reverse

/-- Model of Python `str.strip()`. -/
def pyStrip (s : String) : String := ⟨stripChars s.data⟩

/-- Value of a digit string (used for Python `int(s)` on digit-only strings). -/
def digitsToNat (cs : List Char) : Nat := cs.foldl (fun a c => a * 10 + digitVal c) 0

/-- Model of Python `str.isdigit()` (ASCII digits). -/
def pyIsDigitStr (s : String) : Bool := !s.data.isEmpty && s.data.all isDigitCh

/-- Model of `s.replace(',', '')`. -/
def removeCommas (s : String) : String := ⟨s.data.filter (fun c => c ≠ ',')⟩

/-! ### Python values -/

/-- Dynamic Python values flowing through the pipeline.  `other` stands for
any non-string, non-integer, non-`None` object (list, dict, ...). -/
inductive PyVal where
  | none
  | int (n : Int)
  | str (s : String)
  | other
deriving DecidableEq

/-- Python truthiness, as used by `if not value:` and `a or b`. -/
def PyVal.truthy : PyVal → Bool
  | .none => false
  | .int n => n ≠ 0
  | .str s => s ≠ ""
  | .other => true

/-- Model of Python `a or b` (short-circuiting on truthiness). -/
def pyOr (a b : PyVal) : PyVal := if a.truthy then a else b

/-- Model of Python `str(v)` for the values the pipeline stringifies. -/
def pyRepr : PyVal → String
  | .none => "None"
  | .int n => toString n
  | .str s => s
  | .other => "<object>"

/-- Python exceptions raised/caught by the code under study. -/
inductive PyExc where
  | valueError
  | typeError
  | attributeError
  | overflowError
  | invalidOperation
  | doesNotExist
  | generic
deriving DecidableEq

instance {ε α : Type} [DecidableEq ε] [DecidableEq α] : DecidableEq (Except ε α)
  | .error a, .error b => decidable_of_iff (a = b) (by simp)
  | .error _, .ok _ => isFalse (by simp)
  | .ok _, .error _ => isFalse (by simp)
  | .ok a, .ok b => decidable_of_iff (a = b) (by simp)

/-! ### Raw external records (Python dicts from the JSON feed) -/

/-- A raw API record: a Python dict from field name to value. -/
def Rec := List (String × PyVal)

instance : DecidableEq Rec := inferInstanceAs (DecidableEq (List (String × PyVal)))

/-- Model of `record.get(k)` (default `None`). -/
def rget (r : Rec) (k : String) : PyVal :=
  match r with
  | [] => PyVal.none
  | (k', v) :: rest => if k' = k then v else rget rest k

/-- Model of `record.get(k, d)`: the stored value — even a falsy one — when
the key is present, the default only when the key is absent. -/
def rgetD (r : Rec) (k : String) (d : PyVal) : PyVal :=
  match r with
  | [] => d
  | (k', v) :: rest => if k' = k then v else rgetD rest k d

/-! ### Month parsing — `MGNREGADataService.parse_month` and `MONTH_MAP` -/

/-- `MGNREGADataService.MONTH_MAP` from `services.py` (also duplicated as the
local `month_map` of `Command._direct_api_sync`). -/
def monthMap : List (String × Int) :=
  [("jan", 1), ("january", 1),
   ("feb", 2), ("february", 2),
   ("mar", 3), ("march", 3),
   ("apr", 4), ("april", 4),
   ("may", 5),
   ("jun", 6), ("june", 6),
   ("jul", 7), ("july", 7),
   ("aug", 8), ("august", 8),
   ("sep", 9), ("september", 9),
   ("oct", 10), ("october", 10),
   ("nov", 11), ("november", 11),
   ("dec", 12), ("december", 12)]

/-- Model of Python `dict.get(k)` on a literal dict. -/
def assocFind (k : String) : List (String × Int) → Option Int
  | [] => Option.none
  | (k', v) :: rest => if k = k' then some v else assocFind k rest

/-- `MGNREGADataService.parse_month` (`services.py` lines 38-57). -/
def parseMonth (v : PyVal) : Option Int :=
  if !v.truthy then Option.none
  else
    match v with
    | .int n => some n
    | .str s =>
        if pyIsDigitStr s then some (digitsToNat s.data)
        else assocFind (pyStrip (asciiLower s)) monthMap
    | _ => Option.none

/-- The inline month conversion of `Command._direct_api_sync`
(`sync_mgnrega_data.py` line 307): `month_map.get(str(month_str).lower(), 12)`. -/
def commandParseMonth (v : PyVal) : Int :=
  (assocFind (asciiLower (pyRepr v)) monthMap).getD 12

/-- The month value fed to the conversion above (`sync_mgnrega_data.py` line 295):
`record.get('month', record.get('Month', 'December'))`. -/
def commandMonthValue (r : Rec) : PyVal :=
  rgetD r "month" (rgetD r "Month" (PyVal.str "December"))

/-! ### Year parsing — `MGNREGADataService.parse_year` -/

/-- `c for c in year_value if c.isdigit() or c == '-'` (`services.py` line 71). -/
def filterDigitHyphen (s : String) : String :=
  ⟨s.data.filter (fun c => isDigitCh c || c = '-')⟩

/-- `MGNREGADataService.parse_year` (`services.py` lines 59-85).
`datetime.now().year` is passed in as `currentYear`.  The hyphen branch runs
`int(year_str.split('-')[0])`, which raises `ValueError` when the first
segment is empty; this is modelled by the `Except` error case. -/
def parseYear (currentYear : Int) (v : PyVal) : Except PyExc Int :=
  if !v.truthy then .ok currentYear
  else
    match v with
    | .int n => .ok n
    | .str s =>
        let ys := filterDigitHyphen s
        if ys.data.contains '-' then
          let first := ys.data.takeWhile (fun c => c ≠ '-')
          if first.isEmpty then .error .valueError
          else .ok (digitsToNat first)
        else if pyIsDigitStr ys then
          let y : Int := digitsToNat ys.data
          .ok (if y < 100 then y + 2000 else y)
        else .ok currentYear
    | _ => .ok currentYear

/-- Model of Python `int(s)` on a string: optional sign, then digits
(whitespace stripped); anything else raises `ValueError`. -/
def pyIntOfStr (s : String) : Except PyExc Int :=
  let t := (pyStrip s).data
  match t with
  | '-' :: ds => if !ds.isEmpty && ds.all isDigitCh then .ok (-(digitsToNat ds : Int)) else .error .valueError
  | '+' :: ds => if !ds.isEmpty && ds.all isDigitCh then .ok (digitsToNat ds) else .error .valueError
  | ds => if !ds.isEmpty && ds.all isDigitCh then .ok (digitsToNat ds) else .error .valueError

/-- The inline year conversion of `Command._direct_api_sync`
(`sync_mgnrega_data.py` lines 298-304):
`int(str(year_str).split('-')[0])` when `'-' in str(year_str)`, otherwise
`int(year_str)`; `except (ValueError, AttributeError): year_num = 2024`.
`int(...)` of a non-string, non-integer (e.g. `None`) raises `TypeError`,
which that handler does not catch. -/
def commandParseYear (v : PyVal) : Except PyExc Int :=
  let attempt : Except PyExc Int :=
    if (pyRepr v).data.contains '-' then
      pyIntOfStr ⟨(pyRepr v).data.takeWhile (fun c => c ≠ '-')⟩
    else
      match v with
      | .int n => .ok n
      | .str s => pyIntOfStr s
      | _ => .error .typeError
  match attempt with
  | .ok n => .ok n
  | .error e => if e = .valueError ∨ e = .attributeError then .ok 2024 else .error e

/-! ### Numeric coercion — `safe_int` and `safe_decimal` -/

/-- An exact decimal value `num / 10 ^ scale`, the model of Python `Decimal`
(which itself preserves the written scale, so structural equality of the
written form matches the code's behaviour). -/
structure Scaled where
  num : Int
  scale : Nat
deriving DecidableEq

/-- An exact value `num * 10 ^ (-scale)` with a possibly negative scale,
used to represent the finite values produced by `float(...)` exactly. -/
structure FloatVal where
  num : Int
  scale : Int
deriving DecidableEq

/-- `2 ^ 1024`, the magnitude at which `float(...)` overflows
(half-ulp rounding at the boundary is not modelled). -/
def floatMaxNat : Nat := 2 ^ 1024

/-- Whether `|num * 10 ^ (-scale)| ≥ 2 ^ 1024`. -/
def FloatVal.overflows (v : FloatVal) : Bool :=
  if 0 ≤ v.scale then floatMaxNat * 10 ^ v.scale.toNat ≤ v.num.natAbs
  else floatMaxNat ≤ v.num.natAbs * 10 ^ (-v.scale).toNat

/-- Truncation toward zero, the behaviour of Python `int(f)` on a finite
float (`Int.tdiv` rounds toward zero). -/
def FloatVal.trunc (v : FloatVal) : Int :=
  if 0 ≤ v.scale then Int.tdiv v.num (10 ^ v.scale.toNat)
  else v.num * 10 ^ (-v.scale).toNat

/-- A Python `float` as produced by `float(...)`: an exact finite value, a
signed infinity, or NaN.  Rounding of finite values to binary floating point
is not modelled; the inputs exercised in this file are represented exactly. -/
inductive PyFloat where
  | finite (v : FloatVal)
  | infinite (neg : Bool)
  | nan
deriving DecidableEq

def floatOfFloatVal (v : FloatVal) : PyFloat :=
  if v.overflows then .infinite (decide (v.num < 0)) else .finite v

/-- Exponent part of a float literal: `e`/`E`, optional sign, digits. -/
def parseExponent (cs : List Char) : Option Int :=
  match cs with
  | [] => some 0
  | c :: rest =>
      if c = 'e' ∨ c = 'E' then
        match rest with
        | '-' :: ds => if !ds.isEmpty && ds.all isDigitCh then some (-(digitsToNat ds : Int)) else Option.none
        | '+' :: ds => if !ds.isEmpty && ds.all isDigitCh then some (digitsToNat ds) else Option.none
        | ds => if !ds.isEmpty && ds.all isDigitCh then some (digitsToNat ds) else Option.none
      else Option.none

/-- Unsigned numeric part of a float literal:
`digits [. digits] [exponent]` or `. digits [exponent]`; the value is
`(ip · fp) * 10 ^ e`, i.e. `FloatVal` numerator `ip·fp` at scale
`|fp| - e`. -/
def parseFloatMagnitude (cs : List Char) : Option FloatVal :=
  let ip := cs.takeWhile isDigitCh
  let rest := cs.dropWhile isDigitCh
  let (fp, rest2) :=
    match rest with
    | '.' :: r => (r.takeWhile isDigitCh, r.dropWhile isDigitCh)
    | _ => ([], rest)
  if ip.isEmpty ∧ fp.isEmpty then Option.none
  else
    let mant : Int := digitsToNat ip * 10 ^ fp.length + digitsToNat fp
    match parseExponent rest2 with
    | some e => some ⟨mant, (fp.length : Int) - e⟩
    | Option.none => Option.none

/-- Model of Python `float(s)`: strip whitespace, optional sign, then an
`inf`/`infinity`/`nan` literal (case-insensitive) or a decimal literal with
optional exponent.  Failure (`ValueError`) is the `error` case. -/
def floatOfStr (s : String) : Except PyExc PyFloat :=
  let t := stripChars s.data
  let (neg, body) :=
    match t with
    | '-' :: r => (true, r)
    | '+' :: r => (false, r)
    | r => (false, r)
  let low : List Char := body.map lowerCh
  if low = "inf".data ∨ low = "infinity".data then .ok (.infinite neg)
  else if low = "nan".data then .ok .nan
  else
    match parseFloatMagnitude body with
    | some m => .ok (floatOfFloatVal (if neg then ⟨-m.num, m.scale⟩ else m))
    | Option.none => .error .valueError

/-- Model of Python `float(value)` on a pipeline value.  `float` of an `int`
beyond the float range raises `OverflowError`; of `None` or another
non-numeric object, `TypeError`. -/
def floatOfVal : PyVal → Except PyExc PyFloat
  | .int n => if floatMaxNat ≤ n.natAbs then .error .overflowError else .ok (.finite ⟨n, 0⟩)
  | .str s => floatOfStr s
  | .none => .error .typeError
  | .other => .error .typeError

/-- Model of Python `int(f)` on a float: truncation toward zero; an infinite
float raises `OverflowError`, NaN raises `ValueError`. -/
def intOfFloat : PyFloat → Except PyExc Int
  | .finite v => .ok v.trunc
  | .infinite _ => .error .overflowError
  | .nan => .error .valueError

/-- Sentinel tokens of `safe_int` (`services.py` line 98). -/
def intSentinels : List String := ["na", "n/a", "-", "nil", "null"]

/-- Sentinel tokens of `safe_decimal` (`services.py` line 115). -/
def decSentinels : List String := ["na", "n/a", "-", "nil", "null", ""]

/-- The `try:` body of `MGNREGADataService.safe_int` (`services.py` lines 93-100). -/
def safeIntTry (v : PyVal) (default : Int) : Except PyExc Int :=
  match v with
  | .str s =>
      let s' := pyStrip (removeCommas s)
      if intSentinels.contains (asciiLower s') then .ok default
      else do intOfFloat (← floatOfStr s')
  | _ => do intOfFloat (← floatOfVal v)

/-- `MGNREGADataService.safe_int` (`services.py` lines 87-102).  The handler
catches only `ValueError`, `TypeError` and `AttributeError`; any other
exception (notably `OverflowError` from `int(float('inf'))`) propagates. -/
def safeInt (v : PyVal) (default : Int) : Except PyExc Int :=
  if v = PyVal.none ∨ v = PyVal.str "" then .ok default
  else
    match safeIntTry v default with
    | .ok n => .ok n
    | .error e =>
        if e = .valueError ∨ e = .typeError ∨ e = .attributeError then .ok default
        else .error e

/-- `re.sub(r'[^\d\.\-]', '', value)` (`services.py` line 118). -/
def keepDigitDotHyphen (s : String) : String :=
  ⟨s.data.filter (fun c => isDigitCh c || c = '.' || c = '-')⟩

/-- Model of `Decimal(s)` on a string drawn from the characters
`[0-9.-]`: optional leading `-`, digits with at most one dot, at least one
digit; anything else raises `InvalidOperation`. -/
def decimalOfStr (s : String) : Except PyExc Scaled :=
  let (neg, body) :=
    match s.data with
    | '-' :: r => (true, r)
    | r => (false, r)
  let ip := body.takeWhile isDigitCh
  let rest := body.dropWhile isDigitCh
  match rest with
  | [] =>
      if ip.isEmpty then .error .invalidOperation
      else
        let n : Int := digitsToNat ip
        .ok ⟨if neg then -n else n, 0⟩
  | '.' :: r =>
      let fp := r.takeWhile isDigitCh
      let rest2 := r.dropWhile isDigitCh
      if !rest2.isEmpty then .error .invalidOperation
      else if ip.isEmpty ∧ fp.isEmpty then .error .invalidOperation
      else
        let n : Int := digitsToNat ip * 10 ^ fp.length + digitsToNat fp
        .ok ⟨if neg then -n else n, fp.length⟩
  | _ => .error .invalidOperation

/-- `Decimal(d)` of an integer default or value. -/
def decimalOfInt (n : Int) : Scaled := ⟨n, 0⟩

/-- The `try:` body of `MGNREGADataService.safe_decimal` (`services.py`
lines 110-122).  `Decimal(str(value))` on a non-numeric object raises
`InvalidOperation`. -/
def safeDecimalTry (v : PyVal) (default : Int) : Except PyExc Scaled :=
  match v with
  | .str s =>
      let s' := pyStrip s
      if decSentinels.contains (asciiLower s') then .ok (decimalOfInt default)
      else
        let s'' := keepDigitDotHyphen s'
        if s'' = "" ∨ s'' = "-" then .ok (decimalOfInt default)
        else decimalOfStr s''
  | .int n => .ok (decimalOfInt n)
  | .other => .error .invalidOperation
  | .none => .error .typeError

/-- `MGNREGADataService.safe_decimal` (`services.py` lines 104-125).  The
handler catches `ValueError`, `TypeError`, `AttributeError` and
`InvalidOperation`. -/
def safeDecimal (v : PyVal) (default : Int) : Except PyExc Scaled :=
  if v = PyVal.none ∨ v = PyVal.str "" then .ok (decimalOfInt default)
  else
    match safeDecimalTry v default with
    | .ok q => .ok q
    | .error e =>
        if e = .valueError ∨ e = .typeError ∨ e = .attributeError ∨ e = .invalidOperation
        then .ok (decimalOfInt default)
        else .error e

/-! ### Districts and the statistics store — `apps/districts/models.py` -/

/-- The `District` model: display name, state, unique `district_code`.
(Optional population/coordinates and timestamps play no role in the
pipeline and are omitted.) -/
structure District where
  name : String
  state : String
  code : String
deriving DecidableEq

/-- The metric fields of the `MGNREGAData` model (`models.py` lines 26-40).
Integer fields are `Int`, decimal fields are exact decimals. -/
structure Metrics where
  totalJobCardsIssued : Int
  totalWorkers : Int
  totalActiveWorkers : Int
  totalWorkDays : Scaled
  averageDaysPerHousehold : Scaled
  totalExpenditure : Scaled
  wageExpenditure : Scaled
  materialExpenditure : Scaled
  employmentRate : Scaled
  worksCompleted : Int
  worksInProgress : Int
deriving DecidableEq

/-- One persisted `MGNREGAData` row.  The owning district is referenced by
its unique `district_code`. -/
structure Row where
  districtCode : String
  year : Int
  month : Option Int
  metrics : Metrics
deriving DecidableEq

/-- The natural key of a row, `unique_together = ['district', 'year', 'month']`
(`models.py` line 47). -/
def Row.key (r : Row) : String × Int × Option Int := (r.districtCode, r.year, r.month)

/-- The `MGNREGAData` table. -/
def Store := List Row

instance : DecidableEq Store := inferInstanceAs (DecidableEq (List Row))

/-- The natural-key invariant: at most one row per (district, year, month). -/
def uniqueKeys (s : Store) : Prop := (s.map Row.key).Nodup

instance : DecidablePred uniqueKeys := fun s =>
  inferInstanceAs (Decidable (s.map Row.key).Nodup)

/-- `MGNREGAData.objects.update_or_create(district=..., year=..., month=...,
defaults=...)`: look up the row by natural key; replace its metric fields if
present, insert a new row otherwise.  (Under the `unique_together`
constraint at most one row can match; the model replaces the first.) -/
def upsert (code : String) (y : Int) (mo : Option Int) (m : Metrics) : Store → Store
  | [] => [⟨code, y, mo, m⟩]
  | r :: rs =>
      if r.key = (code, y, mo) then ⟨code, y, mo, m⟩ :: rs
      else r :: upsert code y mo m rs

/-- Metrics lookup by natural key (the database `get` on the key). -/
def findMetrics (k : String × Int × Option Int) : Store → Option Metrics
  | [] => Option.none
  | r :: rs => if r.key = k then some r.metrics else findMetrics k rs

/-- How many rows carry a given natural key. -/
def countKey (k : String × Int × Option Int) (s : Store) : Nat :=
  s.countP (fun r => r.key = k)

/-- `District.objects.get(district_code=...)` — `district_code` is unique,
so the first match is the row. -/
def findDistrictByCode (ds : List District) (code : String) : Option District :=
  ds.find? (fun d => d.code = code)

/-! ### Field normalization and upsert of one record —
`MGNREGADataService.sync_data_to_database` (`services.py` lines 269-374) -/

/-- The metric values of one record, via the alias chains and
`safe_int`/`safe_decimal` calls of `services.py` lines 303-357. -/
def buildMetrics (r : Rec) : Except PyExc Metrics := do
  let jobCards ← safeInt (pyOr (rget r "total_job_cards_issued")
    (pyOr (rget r "job_cards_issued") (rget r "total_job_cards"))) 0
  let workers ← safeInt (pyOr (rget r "total_workers")
    (pyOr (rget r "persons_worked") (rget r "total_persons_worked"))) 0
  let activeWorkers ← safeInt (pyOr (rget r "total_active_workers")
    (pyOr (rget r "active_workers") (rget r "active_job_cards"))) 0
  let workDays ← safeDecimal (pyOr (rget r "persondays_generated")
    (pyOr (rget r "total_persondays") (rget r "person_days_generated"))) 0
  let avgDays ← safeDecimal (pyOr (rget r "avg_days_per_household")
    (pyOr (rget r "average_days_employment") (rget r "avg_days_employment"))) 0
  let totalExp ← safeDecimal (pyOr (rget r "total_exp")
    (pyOr (rget r "total_expenditure") (rget r "total_expenditure_rs"))) 0
  let wageExp ← safeDecimal (pyOr (rget r "wage_exp")
    (pyOr (rget r "wages_paid") (rget r "wage_expenditure"))) 0
  let materialExp ← safeDecimal (pyOr (rget r "material_exp")
    (pyOr (rget r "material_expenditure") (rget r "material_cost"))) 0
  let empRate ← safeDecimal (pyOr (rget r "employment_rate")
    (pyOr (rget r "employment_percentage") (rget r "employment_percent"))) 0
  let worksDone ← safeInt (pyOr (rget r "works_completed")
    (pyOr (rget r "completed_works") (rget r "total_works_completed"))) 0
  let worksOngoing ← safeInt (pyOr (rget r "works_ongoing")
    (pyOr (rget r "ongoing_works") (rget r "works_in_progress"))) 0
  pure ⟨jobCards, workers, activeWorkers, workDays, avgDays, totalExp,
        wageExp, materialExp, empRate, worksDone, worksOngoing⟩

/-- Year/month extraction and upsert for one record (the body of the
`for record in api_data.get('records', [])` loop).  Any exception — e.g.
`ValueError` from `parse_year` or `OverflowError` from `safe_int` — is
caught by the per-record `except Exception` and the record is skipped. -/
def syncRecord (currentYear : Int) (d : District) (s : Store) (r : Rec) : Store :=
  let attempt : Except PyExc (Int × Option Int × Metrics) := do
    let y ← parseYear currentYear (pyOr (rget r "financial_year")
      (pyOr (rget r "fin_year") (pyOr (rget r "year") (rget r "finyear"))))
    let mo := parseMonth (pyOr (rget r "month")
      (pyOr (rget r "fin_month") (rget r "month_name")))
    let ms ← buildMetrics r
    pure (y, mo, ms)
  match attempt with
  | .ok (y, mo, ms) => upsert d.code y mo ms s
  | .error _ => s

/-- `MGNREGADataService.sync_data_to_database`: resolve the district by its
unique code (a missing district is `District.DoesNotExist`, caught, store
untouched, `False` returned), then upsert every record; returns whether at
least one record was synced, plus the updated store. -/
def syncDataToDatabase (districts : List District) (currentYear : Int)
    (code : String) (records : List Rec) (s : Store) : Bool × Store :=
  match findDistrictByCode districts code with
  | Option.none => (false, s)
  | some d => (!records.isEmpty, records.foldl (syncRecord currentYear d) s)

/-! ### District matching -/

/-- The per-district record filter of `MGNREGADataService.bulk_sync_all_states`
(`services.py` lines 405-416): code equality on three aliases, else a
case-insensitive (name, state) comparison on two alias pairs.  `.lower()`
on a non-string raises `AttributeError` (the `error` case); Python's
`and`/`or` short-circuiting is mirrored by the nesting. -/
def lowerOfVal : PyVal → Except PyExc String
  | .str s => .ok (asciiLower s)
  | _ => .error .attributeError

def bulkMatches (r : Rec) (d : District) : Except PyExc Bool := do
  if rget r "district_code" = PyVal.str d.code then return true
  if rget r "dist_code" = PyVal.str d.code then return true
  if rget r "districtcode" = PyVal.str d.code then return true
  let n1 ← lowerOfVal (rgetD r "district_name" (PyVal.str ""))
  if n1 = asciiLower d.name then
    let s1 ← lowerOfVal (rgetD r "state_name" (PyVal.str ""))
    if s1 = asciiLower d.state then return true
  let n2 ← lowerOfVal (rgetD r "districtname" (PyVal.str ""))
  if n2 = asciiLower d.name then
    let s2 ← lowerOfVal (rgetD r "statename" (PyVal.str ""))
    if s2 = asciiLower d.state then return true
  return false

/-- `str.zfill(4)` as used on district codes (codes carry no sign). -/
def zfill (w : Nat) (s : String) : String :=
  if w ≤ s.length then s else ⟨List.replicate (w - s.length) '0' ++ s.data⟩

/-- Python dict assignment `m[k] = d` (replace or append). -/
def dinsert (k : String) (d : District) : List (String × District) → List (String × District)
  | [] => [(k, d)]
  | (k', v) :: rest => if k' = k then (k, d) :: rest else (k', v) :: dinsert k d rest

/-- Python dict lookup `m.get(k)`. -/
def dfind (k : String) : List (String × District) → Option District
  | [] => Option.none
  | (k', v) :: rest => if k' = k then some v else dfind k rest

/-- The `district_map` of `Command._direct_api_sync` (`sync_mgnrega_data.py`
lines 222-228): each district is registered under its code as-is,
upper-cased, lower-cased, and zero-left-padded to width 4. -/
def buildDistrictMap (ds : List District) : List (String × District) :=
  ds.foldl
    (fun m d =>
      dinsert (zfill 4 d.code) d
        (dinsert (asciiLower d.code) d
          (dinsert (asciiUpper d.code) d
            (dinsert d.code d m))))
    []

/-- The code-variant lookup of `Command._direct_api_sync` (lines 278-283):
try the incoming code as-is, upper-cased, lower-cased, zero-padded. -/
def findByCodeVariants (m : List (String × District)) (s : String) : Option District :=
  match dfind s m with
  | some d => some d
  | Option.none =>
      match dfind (asciiUpper s) m with
      | some d => some d
      | Option.none =>
          match dfind (asciiLower s) m with
          | some d => some d
          | Option.none => dfind (zfill 4 s) m

/-- District resolution for one record in `Command._direct_api_sync`
(lines 266-291): extract the code through the alias chain — a falsy code is
unmatched — then resolve through the variant lookup.  The record's name and
state fields are never consulted. -/
def commandResolve (m : List (String × District)) (r : Rec) : Option District :=
  let codeVal := pyOr (rget r "district_code")
    (pyOr (rget r "dist_code") (pyOr (rget r "districtcode") (rget r "District_Code")))
  if !codeVal.truthy then Option.none
  else findByCodeVariants m (pyRepr codeVal)

/-! ### Paginated fetch — `Command._direct_api_sync` (`sync_mgnrega_data.py`
lines 161-210) -/

/-- The page loop `for batch_num in range(max_batches)`.  `pages off` is the
outcome of the HTTP GET at offset `off` (`error` = timeout / non-2xx /
malformed body).  The function returns the accumulated records and the list
of offsets actually requested, or propagates the error of a first-page
failure (`if all_records: break / else: raise`). -/
def fetchBatches (pages : Nat → Except Unit (List Rec)) (batchSize : Nat) :
    Nat → Nat → List Rec → List Nat → Except Unit (List Rec × List Nat)
  | 0, _, acc, reqs => .ok (acc, reqs)
  | fuel + 1, off, acc, reqs =>
      match pages off with
      | .error _ => if acc.isEmpty then .error () else .ok (acc, reqs ++ [off])
      | .ok recs =>
          if recs.isEmpty then .ok (acc, reqs ++ [off])
          else if recs.length < batchSize then .ok (acc ++ recs, reqs ++ [off])
          else fetchBatches pages batchSize fuel (off + batchSize) (acc ++ recs) (reqs ++ [off])

/-- The whole fetch phase: offsets start at 0, `batch_size = 1000` and
`max_batches = 100` in the source are parameters here. -/
def directFetch (pages : Nat → Except Unit (List Rec)) (batchSize maxBatches : Nat) :
    Except Unit (List Rec × List Nat) :=
  fetchBatches pages batchSize maxBatches 0 [] []

/-- What `_direct_api_sync` goes on to process: a fatal first-page failure
is caught at the top (`except Exception ... return`) and nothing is
processed; an empty record set also returns early ('No records fetched');
otherwise the accumulated records are matched and saved. -/
def directApiProcessed (res : Except Unit (List Rec × List Nat)) : Option (List Rec) :=
  match res with
  | .error _ => Option.none
  | .ok (rs, _) => if rs.isEmpty then Option.none else some rs

/-! ### District fetch with database fallback —
`MGNREGADataService.fetch_district_data` (`services.py` lines 163-228) -/

/-- A successful response body: the optional `records` array and optional
`total` count of the JSON object. -/
structure ApiJson where
  records : Option (List Rec)
  total : Option Int
deriving DecidableEq

/-- What `fetch_district_data` returns to its caller (beyond `None`):
either fresh API records (`'source': 'api'`) or rows from the local store
(`'source': 'database'`). -/
inductive FetchResult where
  | fromApi (records : List Rec) (total : Int)
  | fromDb (rows : List Row)
deriving DecidableEq

def FetchResult.source : FetchResult → String
  | .fromApi _ _ => "api"
  | .fromDb _ => "database"

/-- `MGNREGADataService._get_from_database` (`services.py` lines 230-267):
resolve the district by code (`DoesNotExist` is caught → `None`), collect
its rows, return them marked `'source': 'database'` when nonempty, else
`None`.  (The `order_by` is presentational and not modelled.) -/
def getFromDatabase (districts : List District) (code : String) (s : Store) :
    Option FetchResult :=
  match findDistrictByCode districts code with
  | Option.none => Option.none
  | some _ =>
      let rows := s.filter (fun row => row.districtCode = code)
      if rows.isEmpty then Option.none else some (.fromDb rows)

/-- `MGNREGADataService.fetch_district_data`.  `cache` is the memoized
result for the district's cache key; `api` is the outcome of the HTTP
request (`error` = raised exception or malformed body).  On a response with
records the result is built, the records are synced into the store, and the
result is returned; any exception in the `try:` block falls through to the
database fallback, whose own failures are also swallowed — the function
itself returns `Except.ok` on every input. -/
def fetchDistrictData (cache : Option FetchResult) (forceRefresh : Bool)
    (api : Except Unit ApiJson) (districts : List District) (currentYear : Int)
    (code : String) (s : Store) : Except PyExc (Option FetchResult × Store) :=
  if !forceRefresh ∧ cache.isSome then .ok (cache, s)
  else
    let tried : Except Unit (Option (FetchResult × Store)) :=
      match api with
      | .error _ => .error ()
      | .ok data =>
          match data.records with
          | some rs =>
              if 0 < rs.length then
                let res := FetchResult.fromApi rs (data.total.getD rs.length)
                let s' := (syncDataToDatabase districts currentYear code rs s).2
                .ok (some (res, s'))
              else .ok Option.none
          | Option.none => .ok Option.none
    match tried with
    | .ok (some (res, s')) => .ok (some res, s')
    | .ok Option.none => .ok (getFromDatabase districts code s, s)
    | .error _ => .ok (getFromDatabase districts code s, s)

/-- Applying a whole sequence of upserts (each op is a natural key plus
metric values). -/
def applyUpserts (ops : List ((String × Int × Option Int) × Metrics)) (s : Store) : Store :=
  ops.foldl (fun st p => upsert p.1.1 p.1.2.1 p.1.2.2 p.2 st) s

/-! ### Concrete fixtures used in the closed evaluations below -/

/-- All-zero metric values: what `buildMetrics` yields on a record whose
metric fields are all absent. -/
def zeroMetrics : Metrics :=
  ⟨0, 0, 0, ⟨0, 0⟩, ⟨0, 0⟩, ⟨0, 0⟩, ⟨0, 0⟩, ⟨0, 0⟩, ⟨0, 0⟩, 0, 0⟩

/-- A second, distinct set of metric values. -/
def demoMetrics : Metrics :=
  ⟨120, 45, 30, ⟨155, 1⟩, ⟨42, 0⟩, ⟨99925, 2⟩, ⟨70000, 2⟩, ⟨29925, 2⟩, ⟨875, 1⟩, 3, 2⟩

/-- Catalog district for the code-variant scenarios. -/
def districtPune : District := ⟨"Pune", "Maharashtra", "MH-PUN"⟩

/-- Catalog districts for the matching-precedence scenario. -/
def districtAlpha : District := ⟨"Alpha", "StateOne", "A01"⟩

def districtBeta : District := ⟨"Beta", "StateTwo", "B02"⟩

/-- A record whose `district_code` matches `districtAlpha` while its
`(district_name, state_name)` matches `districtBeta`. -/
def recCross : Rec :=
  [("district_code", PyVal.str "A01"),
   ("district_name", PyVal.str "Beta"),
   ("state_name", PyVal.str "StateTwo")]

/-- A record supplying the numeric month string `"13"`. -/
def recMonth13 : Rec :=
  [("financial_year", PyVal.str "2024"), ("month", PyVal.str "13")]

/-- A record with a month name, used in the fetch scenario. -/
def recJan : Rec :=
  [("financial_year", PyVal.str "2024"), ("month", PyVal.str "Jan")]

/-- A persisted row for `districtAlpha`. -/
def rowAlpha : Row := ⟨"A01", 2024, some 1, zeroMetrics⟩

/-! ## Lemmas about the upsert engine -/

@[simp] theorem Row.key_mk (c : String) (y : Int) (mo : Option Int) (m : Metrics) :
    Row.key ⟨c, y, mo, m⟩ = (c, y, mo) := rfl

theorem map_key_upsert (c : String) (y : Int) (mo : Option Int) (m : Metrics) (s : Store) :
    (upsert c y mo m s).map Row.key =
      if (c, y, mo) ∈ s.map Row.key then s.map Row.key else s.map Row.key ++ [(c, y, mo)] := by
  induction s with
  | nil => simp [upsert]
  | cons r rs ih =>
      by_cases h : r.key = (c, y, mo)
      · have hmem : (c, y, mo) ∈ (r :: rs).map Row.key := by
          simp only [List.map_cons, List.mem_cons]
          exact Or.inl h.symm
        rw [show upsert c y mo m (r :: rs) = ⟨c, y, mo, m⟩ :: rs from by
              simp [upsert, h],
            if_pos hmem]
        simp [h]
      · have hcond : ((c, y, mo) ∈ (r :: rs).map Row.key) ↔ ((c, y, mo) ∈ rs.map Row.key) := by
          simp only [List.map_cons, List.mem_cons]
          constructor
          · rintro (hh | hh)
            · exact absurd hh.symm h
            · exact hh
          · exact Or.inr
        rw [show upsert c y mo m (r :: rs) = r :: upsert c y mo m rs from by
              simp [upsert, h]]
        simp only [List.map_cons, ih]
        by_cases hmem : (c, y, mo) ∈ rs.map Row.key
        · rw [if_pos hmem, if_pos ((by simpa [List.map_cons] using hcond.mpr hmem))]
        · rw [if_neg hmem, if_neg (by simpa [List.map_cons] using (hcond.not.mpr hmem)), List.cons_append]

theorem uniqueKeys_upsert (c : String) (y : Int) (mo : Option Int) (m : Metrics)
    (s : Store) (h : uniqueKeys s) : uniqueKeys (upsert c y mo m s) := by
  unfold uniqueKeys at h ⊢
  rw [map_key_upsert]
  by_cases hmem : (c, y, mo) ∈ s.map Row.key
  · simpa [hmem]
  · rw [if_neg hmem]
    refine List.nodup_append.mpr ⟨h, List.nodup_singleton _, ?_⟩
    intro a ha hb
    simp only [List.mem_singleton] at hb
    subst hb
    exact hmem ha

theorem upsert_upsert (c : String) (y : Int) (mo : Option Int) (m1 m2 : Metrics) (s : Store) :
    upsert c y mo m2 (upsert c y mo m1 s) = upsert c y mo m2 s := by
  induction s with
  | nil => simp [upsert]
  | cons r rs ih =>
      by_cases h : r.key = (c, y, mo)
      · rw [show upsert c y mo m1 (r :: rs) = ⟨c, y, mo, m1⟩ :: rs from by simp [upsert, h],
            show upsert c y mo m2 (r :: rs) = ⟨c, y, mo, m2⟩ :: rs from by simp [upsert, h]]
        simp [upsert]
      · rw [show upsert c y mo m1 (r :: rs) = r :: upsert c y mo m1 rs from by simp [upsert, h],
            show upsert c y mo m2 (r :: rs) = r :: upsert c y mo m2 rs from by simp [upsert, h]]
        rw [show upsert c y mo m2 (r :: upsert c y mo m1 rs)
              = r :: upsert c y mo m2 (upsert c y mo m1 rs) from by simp [upsert, h], ih]

theorem findMetrics_upsert (c : String) (y : Int) (mo : Option Int) (m : Metrics) (s : Store) :
    findMetrics (c, y, mo) (upsert c y mo m s) = some m := by
  induction s with
  | nil => simp [upsert, findMetrics]
  | cons r rs ih =>
      by_cases h : r.key = (c, y, mo)
      · rw [show upsert c y mo m (r :: rs) = ⟨c, y, mo, m⟩ :: rs from by simp [upsert, h]]
        simp [findMetrics]
      · rw [show upsert c y mo m (r :: rs) = r :: upsert c y mo m rs from by simp [upsert, h]]
        simpa [findMetrics, h] using ih

theorem countKey_eq_zero_of_not_mem (k : String × Int × Option Int) (s : Store)
    (h : k ∉ s.map Row.key) : countKey k s = 0 := by
  induction s with
  | nil => rfl
  | cons r rs ih =>
      simp only [List.map_cons, List.mem_cons, not_or] at h
      have h1 : ¬ r.key = k := fun hh => h.1 hh.symm
      have h2 := ih h.2
      unfold countKey at h2 ⊢
      rw [List.countP_cons]
      simp [h1, h2]

theorem countKey_upsert (c : String) (y : Int) (mo : Option Int) (m : Metrics)
    (s : Store) (h : uniqueKeys s) : countKey (c, y, mo) (upsert c y mo m s) = 1 := by
  induction s with
  | nil => simp [upsert, countKey, List.countP_cons]
  | cons r rs ih =>
      have hnodup : (r.key :: rs.map Row.key).Nodup := by
        simpa [uniqueKeys, List.map_cons] using h
      have hkey_notmem : r.key ∉ rs.map Row.key := (List.nodup_cons.mp hnodup).1
      have htail : uniqueKeys rs := by
        simpa [uniqueKeys] using (List.nodup_cons.mp hnodup).2
      by_cases hk : r.key = (c, y, mo)
      · rw [show upsert c y mo m (r :: rs) = ⟨c, y, mo, m⟩ :: rs from by simp [upsert, hk]]
        have hz : countKey (c, y, mo) rs = 0 :=
          countKey_eq_zero_of_not_mem _ _ (hk ▸ hkey_notmem)
        unfold countKey at hz ⊢
        rw [List.countP_cons]
        simp [hz]
      · rw [show upsert c y mo m (r :: rs) = r :: upsert c y mo m rs from by simp [upsert, hk]]
        have hrec := ih htail
        unfold countKey at hrec ⊢
        rw [List.countP_cons]
        simp [hrec, hk]

theorem uniqueKeys_applyUpserts (ops : List ((String × Int × Option Int) × Metrics))
    (s : Store) (h : uniqueKeys s) : uniqueKeys (applyUpserts ops s) := by
  induction ops generalizing s with
  | nil => simpa [applyUpserts]
  | cons p rest ih =>
      simp only [applyUpserts, List.foldl_cons]
      exact ih _ (uniqueKeys_upsert _ _ _ _ _ h)

/-! ## Claim C1 -/

/-- C1: for every district, year, month and metric set, applying the upsert
(`MGNREGAData.objects.update_or_create` keyed on district/year/month) twice
with the same inputs leaves exactly one persisted row for that
(district, year, month) natural key, whose metric fields equal the second
call's values; and starting from a store satisfying the natural-key
invariant, no sequence of upserts ever produces two rows with the same
natural key. -/
theorem upsert_natural_key_idempotence (s : Store) (h : uniqueKeys s)
    (c : String) (y : Int) (mo : Option Int) (m1 m2 : Metrics) :
    upsert c y mo m2 (upsert c y mo m1 s) = upsert c y mo m2 s
    ∧ countKey (c, y, mo) (upsert c y mo m2 (upsert c y mo m1 s)) = 1
    ∧ findMetrics (c, y, mo) (upsert c y mo m2 (upsert c y mo m1 s)) = some m2
    ∧ ∀ ops : List ((String × Int × Option Int) × Metrics),
        uniqueKeys (applyUpserts ops s) := by
  refine ⟨upsert_upsert c y mo m1 m2 s, ?_, ?_, fun ops => uniqueKeys_applyUpserts ops s h⟩
  · rw [upsert_upsert]
    exact countKey_upsert c y mo m2 s h
  · rw [upsert_upsert]
    exact findMetrics_upsert c y mo m2 s

/-- Witness for C1 at a concrete store, key and metric values. -/
theorem upsert_natural_key_idempotence_witness :
    uniqueKeys [rowAlpha]
    ∧ (upsert "A01" 2024 (some 2) demoMetrics
          (upsert "A01" 2024 (some 2) zeroMetrics [rowAlpha])
        = upsert "A01" 2024 (some 2) demoMetrics [rowAlpha]
      ∧ countKey ("A01", 2024, some 2)
          (upsert "A01" 2024 (some 2) demoMetrics
            (upsert "A01" 2024 (some 2) zeroMetrics [rowAlpha])) = 1
      ∧ findMetrics ("A01", 2024, some 2)
          (upsert "A01" 2024 (some 2) demoMetrics
            (upsert "A01" 2024 (some 2) zeroMetrics [rowAlpha])) = some demoMetrics
      ∧ ∀ ops : List ((String × Int × Option Int) × Metrics),
          uniqueKeys (applyUpserts ops [rowAlpha])) :=
  ⟨by decide,
   upsert_natural_key_idempotence [rowAlpha] (by decide) "A01" 2024 (some 2)
     zeroMetrics demoMetrics⟩

/-! ## Lemmas about ASCII lowering and month parsing -/

theorem isDigitCh_ofNat_shift (n : Nat) (h1 : 65 ≤ n) (h2 : n ≤ 90) :
    isDigitCh (Char.ofNat (n + 32)) = false := by
  interval_cases n <;> decide

theorem isUpperCh_ofNat_shift (n : Nat) (h1 : 65 ≤ n) (h2 : n ≤ 90) :
    isUpperCh (Char.ofNat (n + 32)) = false := by
  interval_cases n <;> decide

theorem lowerCh_isDigit (c : Char) : isDigitCh (lowerCh c) = isDigitCh c := by
  unfold lowerCh
  by_cases h : isUpperCh c = true
  · rw [if_pos h]
    have hb : 65 ≤ c.toNat ∧ c.toNat ≤ 90 := by simpa [isUpperCh] using h
    rw [isDigitCh_ofNat_shift c.toNat hb.1 hb.2]
    rw [eq_comm, Bool.eq_false_iff]
    intro hcontra
    simp only [isDigitCh, Bool.and_eq_true, decide_eq_true_eq] at hcontra
    omega
  · rw [if_neg h]

theorem lowerCh_of_digit (c : Char) (h : isDigitCh c = true) : lowerCh c = c := by
  unfold lowerCh
  have hb : 48 ≤ c.toNat ∧ c.toNat ≤ 57 := by
    simpa [isDigitCh] using h
  rw [if_neg]
  intro hcontra
  simp only [isUpperCh, Bool.and_eq_true, decide_eq_true_eq] at hcontra
  omega

theorem lowerCh_lowerCh (c : Char) : lowerCh (lowerCh c) = lowerCh c := by
  by_cases h : isUpperCh c = true
  · have hb : 65 ≤ c.toNat ∧ c.toNat ≤ 90 := by simpa [isUpperCh] using h
    rw [show lowerCh c = Char.ofNat (c.toNat + 32) from by unfold lowerCh; rw [if_pos h]]
    unfold lowerCh
    rw [isUpperCh_ofNat_shift c.toNat hb.1 hb.2]
    simp
  · rw [show lowerCh c = c from by unfold lowerCh; rw [if_neg h]]
    unfold lowerCh
    rw [if_neg h]

theorem asciiLower_eq_empty_iff (s : String) : asciiLower s = "" ↔ s = "" := by
  cases s with
  | mk l => simp [asciiLower, String.ext_iff]

theorem all_isDigit_map_lower (l : List Char) :
    (l.map lowerCh).all isDigitCh = l.all isDigitCh := by
  induction l with
  | nil => rfl
  | cons c cs ih => simp only [List.map_cons, List.all_cons, lowerCh_isDigit, ih]

theorem pyIsDigitStr_lower (s : String) : pyIsDigitStr (asciiLower s) = pyIsDigitStr s := by
  cases s with
  | mk l =>
      have hempty : (l.map lowerCh).isEmpty = l.isEmpty := by
        cases l <;> rfl
      show (!(l.map lowerCh).isEmpty && (l.map lowerCh).all isDigitCh)
        = (!l.isEmpty && l.all isDigitCh)
      rw [hempty, all_isDigit_map_lower]

theorem asciiLower_of_digits (s : String) (h : pyIsDigitStr s = true) :
    asciiLower s = s := by
  cases s with
  | mk l =>
      simp only [pyIsDigitStr, Bool.and_eq_true, List.all_eq_true] at h
      simp only [asciiLower, String.ext_iff]
      show l.map lowerCh = l
      calc l.map lowerCh = l.map id := List.map_congr_left (fun a ha => lowerCh_of_digit a (h.2 a ha))
        _ = l := List.map_id l

theorem asciiLower_idem (s : String) : asciiLower (asciiLower s) = asciiLower s := by
  cases s with
  | mk l =>
      simp only [asciiLower, String.ext_iff, List.map_map]
      show l.map (lowerCh ∘ lowerCh) = l.map lowerCh
      exact List.map_congr_left (fun a _ => lowerCh_lowerCh a)

theorem parseMonth_lower_invariant (s : String) :
    parseMonth (PyVal.str s) = parseMonth (PyVal.str (asciiLower s)) := by
  by_cases hs : s = ""
  · subst hs; rfl
  · have hs' : ¬ asciiLower s = "" := fun h => hs ((asciiLower_eq_empty_iff s).mp h)
    have ht : PyVal.truthy (PyVal.str s) = true := by simp [PyVal.truthy, hs]
    have ht' : PyVal.truthy (PyVal.str (asciiLower s)) = true := by simp [PyVal.truthy, hs']
    simp only [parseMonth, ht, ht', Bool.not_true, if_false]
    rw [pyIsDigitStr_lower, asciiLower_idem]
    by_cases hd : pyIsDigitStr s = true
    · simp [hd, asciiLower_of_digits s hd]
    · simp [hd]

theorem assocFind_mem_values (k : String) (l : List (String × Int)) (m : Int)
    (h : assocFind k l = some m) : m ∈ l.map Prod.snd := by
  induction l with
  | nil => cases h
  | cons kv rest ih =>
      unfold assocFind at h
      by_cases hk : k = kv.1
      · rw [if_pos hk] at h
        cases h
        simp
      · rw [if_neg hk] at h
        simpa using Or.inr (ih h)

theorem monthMap_values_bounds : ∀ m ∈ monthMap.map Prod.snd, 1 ≤ m ∧ m ≤ 12 := by decide

theorem assocFind_monthMap_bounds (k : String) (m : Int)
    (h : assocFind k monthMap = some m) : 1 ≤ m ∧ m ≤ 12 :=
  monthMap_values_bounds m (assocFind_mem_values k monthMap m h)

/-! ## Claim C2 -/

/-- C2 counterexample: `recCross` carries `districtAlpha`'s code but
`districtBeta`'s (name, state).  In `bulk_sync_all_states` the per-district
filter accepts the record for BOTH districts — the record is attributed to
District B as well, contradicting “resolves to A and only A”. -/
theorem bulk_match_attributes_both_districts :
    rget recCross "district_code" = PyVal.str districtAlpha.code
    ∧ districtAlpha ≠ districtBeta
    ∧ bulkMatches recCross districtAlpha = .ok true
    ∧ bulkMatches recCross districtBeta = .ok true := by decide

/-- C2 amended: in `Command._direct_api_sync` resolution uses only the code
variants — a record whose code matches District A resolves to A whatever its
name/state fields say; in `bulk_sync_all_states`, however, the per-district
filter is a plain disjunction, so the same record is also attributed to the
district matched by (name, state). -/
theorem code_match_resolution_amended (nameF stateF : String) :
    commandResolve (buildDistrictMap [districtAlpha, districtBeta])
      [("district_code", PyVal.str "A01"),
       ("district_name", PyVal.str nameF),
       ("state_name", PyVal.str stateF)] = some districtAlpha
    ∧ bulkMatches recCross districtAlpha = .ok true
    ∧ bulkMatches recCross districtBeta = .ok true :=
  ⟨rfl, by decide, by decide⟩

/-- Witness for C2 at concrete name/state fields. -/
theorem code_match_resolution_amended_witness :
    commandResolve (buildDistrictMap [districtAlpha, districtBeta])
      [("district_code", PyVal.str "A01"),
       ("district_name", PyVal.str "Beta"),
       ("state_name", PyVal.str "StateTwo")] = some districtAlpha
    ∧ bulkMatches recCross districtAlpha = .ok true
    ∧ bulkMatches recCross districtBeta = .ok true :=
  code_match_resolution_amended "Beta" "StateTwo"

/-! ## Claim C3 -/

/-- C3 counterexample: in the `_direct_api_sync` path cited by the claim, an
unrecognized month string is mapped to 12 (`month_map.get(..., 12)`), not to
null. -/
theorem command_month_unrecognized_defaults_to_twelve :
    assocFind "foo" monthMap = Option.none
    ∧ commandParseMonth (PyVal.str "FOO") = 12
    ∧ commandMonthValue [] = PyVal.str "December" := by decide

/-- C3 amended: `parse_month` is case-insensitive over month names
("JAN"/"jan"/"January" all yield 1 — lowering the input never changes the
result) and yields null on absent or unrecognized values; the direct-API
command's inline conversion instead defaults unrecognized or absent months
to 12 ("December"). -/
theorem parse_month_case_insensitive_amended :
    parseMonth (PyVal.str "JAN") = some 1
    ∧ parseMonth (PyVal.str "jan") = some 1
    ∧ parseMonth (PyVal.str "January") = some 1
    ∧ parseMonth PyVal.none = Option.none
    ∧ parseMonth (PyVal.str "") = Option.none
    ∧ commandParseMonth (PyVal.str "December") = 12
    ∧ (∀ s : String, parseMonth (PyVal.str s) = parseMonth (PyVal.str (asciiLower s)))
    ∧ (∀ s : String, pyIsDigitStr s = false →
        assocFind (pyStrip (asciiLower s)) monthMap = Option.none →
        parseMonth (PyVal.str s) = Option.none) := by
  refine ⟨by decide, by decide, by decide, rfl, rfl, by decide,
    parseMonth_lower_invariant, ?_⟩
  intro s hd hfind
  by_cases hs : s = ""
  · simp [hs, parseMonth, PyVal.truthy]
  · have ht : PyVal.truthy (PyVal.str s) = true := by simp [PyVal.truthy, hs]
    simp [parseMonth, ht, hd, hfind]

/-- Witness for C3's quantified conjuncts at concrete strings. -/
theorem parse_month_case_insensitive_amended_witness :
    parseMonth (PyVal.str "mArCh") = parseMonth (PyVal.str (asciiLower "mArCh"))
    ∧ parseMonth (PyVal.str "xyz") = Option.none :=
  ⟨parse_month_case_insensitive_amended.2.2.2.2.2.2.1 "mArCh",
   parse_month_case_insensitive_amended.2.2.2.2.2.2.2 "xyz" (by decide) (by decide)⟩

/-! ## Claim C9 -/

/-- C9 counterexample: a raw record with numeric month string "13" flows
through `parse_month` and `sync_data_to_database` unvalidated, persisting a
row with month 13, outside 1..12. -/
theorem month_thirteen_persisted :
    (syncDataToDatabase [districtAlpha] 2026 "A01" [recMonth13] []).2
      = [⟨"A01", 2024, some 13, zeroMetrics⟩]
    ∧ parseMonth (PyVal.str "13") = some 13
    ∧ ¬(1 ≤ (13 : Int) ∧ (13 : Int) ≤ 12) := by decide

/-- C9 amended: months obtained from month *names* are always in 1..12 (the
only non-null values `parse_month` produces for non-numeric strings come
from `MONTH_MAP`), but integer and numeric-string month values are passed
through unchecked — e.g. "13" yields month 13. -/
theorem month_range_amended :
    (∀ s : String, pyIsDigitStr s = false → ∀ m : Int,
        parseMonth (PyVal.str s) = some m → 1 ≤ m ∧ m ≤ 12)
    ∧ parseMonth (PyVal.str "13") = some 13 := by
  refine ⟨?_, by decide⟩
  intro s hd m hm
  by_cases hs : s = ""
  · simp [hs, parseMonth, PyVal.truthy] at hm
  · have ht : PyVal.truthy (PyVal.str s) = true := by simp [PyVal.truthy, hs]
    simp [parseMonth, ht, hd] at hm
    exact assocFind_monthMap_bounds _ m hm

/-- Witness for C9's quantified conjunct at a concrete month name. -/
theorem month_range_amended_witness :
    pyIsDigitStr "jan" = false ∧ (1 ≤ (1 : Int) ∧ (1 : Int) ≤ 12) :=
  ⟨by decide, month_range_amended.1 "jan" (by decide) 1 (by decide)⟩

/-! ## Lemmas about the paginated fetcher -/

theorem fetchBatches_all_full (pg : Nat → Except Unit (List Rec)) (bs : Nat)
    (hfull : ∀ off, ∃ p, pg off = .ok p ∧ p.length = bs) (hbs : 0 < bs) :
    ∀ fuel off acc reqs, ∃ res, fetchBatches pg bs fuel off acc reqs = .ok res
      ∧ res.2.length = reqs.length + fuel := by
  intro fuel
  induction fuel with
  | zero => exact fun off acc reqs => ⟨(acc, reqs), rfl, by simp⟩
  | succ n ih =>
      intro off acc reqs
      obtain ⟨p, hp, hlen⟩ := hfull off
      have hne : p.isEmpty = false := by
        cases p with
        | nil => simp at hlen; omega
        | cons a as => rfl
      have hnlt : ¬ (p.length < bs) := by omega
      obtain ⟨res, hres, hlen2⟩ := ih (off + bs) (acc ++ p) (reqs ++ [off])
      refine ⟨res, ?_, ?_⟩
      · show fetchBatches pg bs (n + 1) off acc reqs = .ok res
        simp only [fetchBatches, hp, hne, Bool.false_eq_true, if_false, hnlt]
        exact hres
      · rw [hlen2]
        simp only [List.length_append, List.length_singleton]
        omega

/-! ## Claim C4 -/

/-- C4: when page 1 returns exactly `batch_size` records and page 2 fewer,
the fetch requests offsets 0 and `batch_size` only (increasing by
`batch_size`), stops after page 2, and returns the two pages concatenated
in order; a page of zero records also stops the loop, and with endless full
pages exactly `max_batches` pages are requested. -/
theorem paginated_fetch_two_pages (pages : Nat → Except Unit (List Rec))
    (batchSize maxBatches : Nat) (p0 p1 : List Rec)
    (h0 : pages 0 = .ok p0) (hl0 : p0.length = batchSize)
    (h1 : pages batchSize = .ok p1) (hl1 : p1.length < batchSize)
    (hm : 2 ≤ maxBatches) :
    directFetch pages batchSize maxBatches = .ok (p0 ++ p1, [0, batchSize])
    ∧ (∀ pg : Nat → Except Unit (List Rec), ∀ mb, pg 0 = .ok ([] : List Rec) → 1 ≤ mb →
        directFetch pg batchSize mb = .ok ([], [0]))
    ∧ (∀ pg : Nat → Except Unit (List Rec),
        (∀ off, ∃ p, pg off = .ok p ∧ p.length = batchSize) →
        ∃ res, directFetch pg batchSize maxBatches = .ok res
          ∧ res.2.length = maxBatches) := by
  have hbs : 0 < batchSize := by omega
  refine ⟨?_, ?_, ?_⟩
  · obtain ⟨k, rfl⟩ : ∃ k, maxBatches = k + 2 := ⟨maxBatches - 2, by omega⟩
    have hne0 : p0.isEmpty = false := by
      cases p0 with
      | nil => simp at hl0; omega
      | cons a as => rfl
    have hnlt0 : ¬ (p0.length < batchSize) := by omega
    show fetchBatches pages batchSize (k + 1 + 1) 0 [] [] = _
    simp only [fetchBatches, h0, hne0, Bool.false_eq_true, if_false, hnlt0,
      Nat.zero_add, List.nil_append]
    by_cases hp1 : p1.isEmpty
    · have : p1 = [] := List.isEmpty_iff.mp hp1
      subst this
      simp [fetchBatches, h1]
    · have hp1' : p1.isEmpty = false := by simpa using hp1
      simp [fetchBatches, h1, hp1', hl1]
  · intro pg mb h hmb
    obtain ⟨j, rfl⟩ : ∃ j, mb = j + 1 := ⟨mb - 1, by omega⟩
    show fetchBatches pg batchSize (j + 1) 0 [] [] = _
    simp [fetchBatches, h]
  · intro pg hfull
    obtain ⟨res, hres, hlen⟩ := fetchBatches_all_full pg batchSize hfull hbs maxBatches 0 [] []
    exact ⟨res, hres, by simpa using hlen⟩

/-- Witness for C4: a concrete two-page sequence with `batch_size = 2`. -/
theorem paginated_fetch_two_pages_witness :
    directFetch (fun off => if off = 0 then .ok [recJan, recJan] else .ok [recJan]) 2 5
      = .ok ([recJan, recJan] ++ [recJan], [0, 2]) :=
  (paginated_fetch_two_pages _ 2 5 [recJan, recJan] [recJan]
    rfl (by decide) rfl (by decide) (by decide)).1

/-! ## Claim C5 -/

/-- C5: a page-request failure after at least one successfully fetched page
stops the fetch and keeps the accumulated records for processing (partial
success); a failure on the very first page propagates as an error and
nothing is processed. -/
theorem paginated_fetch_failure_policy (pages : Nat → Except Unit (List Rec))
    (batchSize maxBatches : Nat) (p0 : List Rec)
    (h0 : pages 0 = .ok p0) (hl0 : p0.length = batchSize) (hne : p0 ≠ [])
    (h1 : pages batchSize = .error ()) (hm : 2 ≤ maxBatches) :
    directFetch pages batchSize maxBatches = .ok (p0, [0, batchSize])
    ∧ directApiProcessed (directFetch pages batchSize maxBatches) = some p0
    ∧ (∀ pg : Nat → Except Unit (List Rec), ∀ mb, 1 ≤ mb → pg 0 = .error () →
        directFetch pg batchSize mb = .error ()
        ∧ directApiProcessed (directFetch pg batchSize mb) = Option.none) := by
  have hne0 : p0.isEmpty = false := by
    cases p0 with
    | nil => exact absurd rfl hne
    | cons a as => rfl
  have hnlt0 : ¬ (p0.length < batchSize) := by omega
  have hmain : directFetch pages batchSize maxBatches = .ok (p0, [0, batchSize]) := by
    obtain ⟨k, rfl⟩ : ∃ k, maxBatches = k + 2 := ⟨maxBatches - 2, by omega⟩
    show fetchBatches pages batchSize (k + 1 + 1) 0 [] [] = _
    simp only [fetchBatches, h0, hne0, Bool.false_eq_true, if_false, hnlt0,
      Nat.zero_add, List.nil_append]
    simp [fetchBatches, h1, hne0]
  refine ⟨hmain, ?_, ?_⟩
  · rw [hmain]
    simp [directApiProcessed, hne0]
  · intro pg mb hmb h
    obtain ⟨j, rfl⟩ : ∃ j, mb = j + 1 := ⟨mb - 1, by omega⟩
    have hfail : directFetch pg batchSize (j + 1) = .error () := by
      show fetchBatches pg batchSize (j + 1) 0 [] [] = _
      simp [fetchBatches, h]
    exact ⟨hfail, by rw [hfail]; rfl⟩

/-- Witness for C5: page 1 succeeds with two records, page 2 fails. -/
theorem paginated_fetch_failure_policy_witness :
    directFetch (fun off => if off = 0 then .ok [recJan, recJan] else .error ()) 2 5
      = .ok ([recJan, recJan], [0, 2]) :=
  (paginated_fetch_failure_policy _ 2 5 [recJan, recJan]
    rfl (by decide) (by decide) rfl (by decide)).1

/-! ## Lemmas about the district code-variant map -/

theorem dinsert_vals (d : District) (k : String) (m : List (String × District))
    (h : ∀ kv ∈ m, kv.2 = d) : ∀ kv ∈ dinsert k d m, kv.2 = d := by
  induction m with
  | nil =>
      intro kv hkv
      simp only [dinsert, List.mem_singleton] at hkv
      rw [hkv]
  | cons p rest ih =>
      obtain ⟨k', v⟩ := p
      intro kv hkv
      by_cases hp : k' = k
      · rw [show dinsert k d ((k', v) :: rest) = (k, d) :: rest from by
            simp [dinsert, hp]] at hkv
        rcases List.mem_cons.mp hkv with hh | hh
        · rw [hh]
        · exact h kv (List.mem_cons_of_mem _ hh)
      · rw [show dinsert k d ((k', v) :: rest) = (k', v) :: dinsert k d rest from by
            simp [dinsert, hp]] at hkv
        rcases List.mem_cons.mp hkv with hh | hh
        · rw [hh]
          exact h (k', v) (List.mem_cons_self _ _)
        · exact ih (fun kv2 hkv2 => h kv2 (List.mem_cons_of_mem _ hkv2)) kv hh

theorem dfind_val (d : District) (m : List (String × District))
    (h : ∀ kv ∈ m, kv.2 = d) (k : String) (v : District)
    (hf : dfind k m = some v) : v = d := by
  induction m with
  | nil => cases hf
  | cons p rest ih =>
      obtain ⟨k', v'⟩ := p
      by_cases hp : k' = k
      · rw [show dfind k ((k', v') :: rest) = some v' from by simp [dfind, hp]] at hf
        have hv := Option.some.inj hf
        rw [← hv]
        exact h (k', v') (List.mem_cons_self _ _)
      · rw [show dfind k ((k', v') :: rest) = dfind k rest from by simp [dfind, hp]] at hf
        exact ih (fun kv2 hkv2 => h kv2 (List.mem_cons_of_mem _ hkv2)) hf

theorem dfind_dinsert_self (k : String) (d : District) (m : List (String × District)) :
    dfind k (dinsert k d m) = some d := by
  induction m with
  | nil => simp [dinsert, dfind]
  | cons p rest ih =>
      obtain ⟨k', v'⟩ := p
      by_cases hp : k' = k
      · rw [show dinsert k d ((k', v') :: rest) = (k, d) :: rest from by simp [dinsert, hp]]
        simp [dfind]
      · rw [show dinsert k d ((k', v') :: rest) = (k', v') :: dinsert k d rest from by
            simp [dinsert, hp]]
        rw [show dfind k ((k', v') :: dinsert k d rest) = dfind k (dinsert k d rest) from by
            simp [dfind, hp]]
        exact ih

theorem dfind_dinsert_keep (k k' : String) (d : District) (m : List (String × District))
    (h : dfind k m = some d) : dfind k (dinsert k' d m) = some d := by
  by_cases hk : k' = k
  · subst hk
    exact dfind_dinsert_self k' d m
  · induction m with
    | nil => cases h
    | cons p rest ih =>
        obtain ⟨k'', v''⟩ := p
        by_cases hp : k'' = k'
        · rw [show dinsert k' d ((k'', v'') :: rest) = (k', d) :: rest from by
              simp [dinsert, hp]]
          rw [show dfind k ((k', d) :: rest) = dfind k rest from by simp [dfind, hk]]
          rw [show dfind k ((k'', v'') :: rest) = dfind k rest from by
              simp [dfind, hp ▸ hk]] at h
          exact h
        · rw [show dinsert k' d ((k'', v'') :: rest) = (k'', v'') :: dinsert k' d rest from by
              simp [dinsert, hp]]
          by_cases hq : k'' = k
          · rw [show dfind k ((k'', v'') :: rest) = some v'' from by simp [dfind, hq]] at h
            rw [show dfind k ((k'', v'') :: dinsert k' d rest) = some v'' from by
                simp [dfind, hq]]
            exact h
          · rw [show dfind k ((k'', v'') :: rest) = dfind k rest from by simp [dfind, hq]] at h
            rw [show dfind k ((k'', v'') :: dinsert k' d rest) = dfind k (dinsert k' d rest)
                from by simp [dfind, hq]]
            exact ih h

theorem buildDistrictMap_singleton_vals (d : District) :
    ∀ kv ∈ buildDistrictMap [d], kv.2 = d := by
  show ∀ kv ∈ dinsert (zfill 4 d.code) d
      (dinsert (asciiLower d.code) d
        (dinsert (asciiUpper d.code) d (dinsert d.code d []))), kv.2 = d
  exact dinsert_vals d _ _ (dinsert_vals d _ _ (dinsert_vals d _ _
    (dinsert_vals d _ _ (by intro kv hkv; cases hkv))))

theorem buildDistrictMap_singleton_upper (d : District) :
    dfind (asciiUpper d.code) (buildDistrictMap [d]) = some d := by
  show dfind (asciiUpper d.code) (dinsert (zfill 4 d.code) d
      (dinsert (asciiLower d.code) d
        (dinsert (asciiUpper d.code) d (dinsert d.code d [])))) = some d
  exact dfind_dinsert_keep _ _ _ _ (dfind_dinsert_keep _ _ _ _
    (dfind_dinsert_self _ _ _))

/-! ## Claim C7 -/

/-- C7 counterexample: against a catalog containing code "MH-PUN", the
incoming code "MH-PUN " (trailing space) is NOT resolved — none of the four
variants (as-is, upper, lower, zfill) strips whitespace — so the record is
unmatched, contradicting the claimed end-to-end scenario. -/
theorem trailing_space_code_not_matched :
    districtPune.code = "MH-PUN"
    ∧ findByCodeVariants (buildDistrictMap [districtPune]) "MH-PUN " = Option.none
    ∧ commandResolve (buildDistrictMap [districtPune])
        [("district_code", PyVal.str "MH-PUN ")] = Option.none := by decide

/-- C7 amended: the lookup registers each district code as-is, upper-cased,
lower-cased and zero-left-padded, and tries the same four variants of the
incoming code; any pure ASCII case variant of a catalog code therefore
resolves — but a code with extra whitespace (e.g. a trailing space) does
not, since no variant trims it. -/
theorem code_variant_lookup_case_amended (d : District) (s : String)
    (h : asciiUpper s = asciiUpper d.code) :
    findByCodeVariants (buildDistrictMap [d]) s = some d := by
  have hupper : dfind (asciiUpper s) (buildDistrictMap [d]) = some d := by
    rw [h]
    exact buildDistrictMap_singleton_upper d
  unfold findByCodeVariants
  cases hfs : dfind s (buildDistrictMap [d]) with
  | some v =>
      rw [dfind_val d _ (buildDistrictMap_singleton_vals d) s v hfs]
  | none => simp [hupper]

/-- Witness for C7: the lower-case variant "mh-pun" resolves to the catalog
district with code "MH-PUN". -/
theorem code_variant_lookup_case_amended_witness :
    asciiUpper "mh-pun" = asciiUpper districtPune.code
    ∧ findByCodeVariants (buildDistrictMap [districtPune]) "mh-pun" = some districtPune :=
  ⟨by decide, code_variant_lookup_case_amended districtPune "mh-pun" (by decide)⟩

/-! ## Lemmas about year parsing -/

theorem filterDigitHyphen_of_digits (s : String) (h : pyIsDigitStr s = true) :
    filterDigitHyphen s = s := by
  cases s with
  | mk l =>
      simp only [pyIsDigitStr, Bool.and_eq_true, List.all_eq_true] at h
      simp only [filterDigitHyphen, String.ext_iff]
      show l.filter (fun c => isDigitCh c || c = '-') = l
      rw [List.filter_eq_self]
      intro a ha
      simp [h.2 a ha]

theorem not_mem_hyphen_of_digits (l : List Char) (h : l.all isDigitCh = true) :
    '-' ∉ l := by
  intro hm
  rw [List.all_eq_true] at h
  exact absurd (h _ hm) (by decide)

/-! ## Claim C8 -/

/-- C8 counterexample: in the `_direct_api_sync` year conversion cited by
the claim, the two-digit string "24" is NOT promoted — `int("24")` is 24,
not 2024; and in `parse_year` itself, an unparseable all-symbol input whose
digit/hyphen residue is "-" raises `ValueError` instead of defaulting to
the current year. -/
theorem command_year_two_digit_not_promoted :
    commandParseYear (PyVal.str "24") = .ok 24
    ∧ ((24 : Int) = 2024 → False)
    ∧ parseYear 2026 (PyVal.str "-") = .error .valueError := by decide

/-- C8 amended: in the service's `parse_year`, "24" normalizes to 2024 and
"2024-25" to 2024; two-digit *string* years are promoted by adding 2000,
while integer inputs pass through unchanged; an absent input, or an
unparseable one whose digit/hyphen residue is empty, yields the current
processing year (a residue with a leading hyphen raises instead).  The
direct-API command's inline conversion performs no promotion ("24" → 24)
and defaults failures to the constant 2024. -/
theorem parse_year_amended (cy : Int) :
    parseYear cy (PyVal.str "24") = .ok 2024
    ∧ parseYear cy (PyVal.str "2024-25") = .ok 2024
    ∧ parseYear cy (PyVal.int 24) = .ok 24
    ∧ parseYear cy PyVal.none = .ok cy
    ∧ (∀ s : String, pyIsDigitStr s = true → digitsToNat s.data < 100 →
        parseYear cy (PyVal.str s) = .ok ((digitsToNat s.data : Int) + 2000))
    ∧ (∀ s : String, filterDigitHyphen s = "" → parseYear cy (PyVal.str s) = .ok cy)
    ∧ commandParseYear (PyVal.str "abc") = .ok 2024 := by
  refine ⟨rfl, rfl, rfl, rfl, ?_, ?_, by decide⟩
  · intro s hd hlt
    have hs : s ≠ "" := by
      intro hh
      subst hh
      simp [pyIsDigitStr] at hd
    have ht : PyVal.truthy (PyVal.str s) = true := by simp [PyVal.truthy, hs]
    have hfil : filterDigitHyphen s = s := filterDigitHyphen_of_digits s hd
    have hall : s.data.all isDigitCh = true := by
      have := hd
      simp only [pyIsDigitStr, Bool.and_eq_true] at this
      exact this.2
    have hmem : '-' ∉ s.data := not_mem_hyphen_of_digits s.data hall
    have hcast : (digitsToNat s.data : Int) < 100 := by exact_mod_cast hlt
    simp [parseYear, ht, hfil, hmem, hd, hcast]
  · intro s hfe
    by_cases hs : s = ""
    · subst hs; rfl
    · have ht : PyVal.truthy (PyVal.str s) = true := by simp [PyVal.truthy, hs]
      simp [parseYear, ht, hfe, pyIsDigitStr]

/-- Witness for C8 at `currentYear = 2026` and concrete strings. -/
theorem parse_year_amended_witness :
    parseYear 2026 (PyVal.str "24") = .ok 2024
    ∧ parseYear 2026 (PyVal.str "99") = .ok ((digitsToNat "99".data : Int) + 2000)
    ∧ parseYear 2026 (PyVal.str "%@!") = .ok 2026 :=
  ⟨(parse_year_amended 2026).1,
   (parse_year_amended 2026).2.2.2.2.1 "99" (by decide) (by decide),
   (parse_year_amended 2026).2.2.2.2.2.1 "%@!" (by decide)⟩

/-! ## Claim C6 -/

/-- C6 (evidence for the code bug): `safe_int`'s handler catches only
`ValueError`, `TypeError` and `AttributeError`, so `int(float("inf"))`
raises an uncaught `OverflowError` — `safe_int` is not total, contradicting
the documented safe/lossy-tolerant contract; sentinel inputs do return the
caller-supplied default, as the claim states. -/
theorem safe_int_raises_overflow_on_inf :
    safeInt (PyVal.str "inf") 0 = .error .overflowError
    ∧ safeInt (PyVal.str " NA ") 7 = .ok 7
    ∧ safeInt (PyVal.str "n/a") 7 = .ok 7
    ∧ safeInt (PyVal.str "-") 7 = .ok 7
    ∧ safeInt (PyVal.str "nil") 7 = .ok 7
    ∧ safeInt (PyVal.str "NULL") 7 = .ok 7
    ∧ safeInt PyVal.none 7 = .ok 7
    ∧ safeInt (PyVal.str "") 7 = .ok 7
    ∧ safeDecimal (PyVal.str "NA") 7 = .ok (decimalOfInt 7)
    ∧ safeDecimal (PyVal.str "-") 7 = .ok (decimalOfInt 7)
    ∧ safeDecimal (PyVal.str "null") 7 = .ok (decimalOfInt 7)
    ∧ safeDecimal PyVal.none 7 = .ok (decimalOfInt 7)
    ∧ safeDecimal (PyVal.str "") 7 = .ok (decimalOfInt 7)
    ∧ safeDecimal (PyVal.str "garbage") 7 = .ok (decimalOfInt 7)
    ∧ safeDecimal PyVal.other 7 = .ok (decimalOfInt 7) := by decide

/-! ## Claim C10 -/

/-- C10: `fetch_district_data` returns normally on every input — API
failure or an empty record set falls back to the database, returning the
district's persisted rows marked source "database" when any exist, `None`
when the district is unknown or has no rows; a successful response with
records is returned as-is (source "api") after being synced into the
store. -/
theorem fetch_district_data_total_fallback (cache : Option FetchResult) (fr : Bool)
    (api : Except Unit ApiJson) (ds : List District) (cy : Int) (code : String) (s : Store) :
    (∃ out, fetchDistrictData cache fr api ds cy code s = .ok out)
    ∧ (api = .error () →
        fetchDistrictData Option.none fr api ds cy code s
          = .ok (getFromDatabase ds code s, s))
    ∧ (∀ data, api = .ok data → (data.records = Option.none ∨ data.records = some []) →
        fetchDistrictData Option.none fr api ds cy code s
          = .ok (getFromDatabase ds code s, s))
    ∧ (∀ data rs, api = .ok data → data.records = some rs → rs ≠ [] →
        fetchDistrictData Option.none fr api ds cy code s
          = .ok (some (.fromApi rs (data.total.getD rs.length)),
                 (syncDataToDatabase ds cy code rs s).2))
    ∧ (∀ res, getFromDatabase ds code s = some res → res.source = "database")
    ∧ (findDistrictByCode ds code = Option.none → getFromDatabase ds code s = Option.none)
    ∧ ((s.filter (fun row => row.districtCode = code)).isEmpty = true →
        getFromDatabase ds code s = Option.none) := by
  refine ⟨?_, ?_, ?_, ?_, ?_, ?_, ?_⟩
  · unfold fetchDistrictData
    by_cases hc : (!fr) = true ∧ cache.isSome = true
    · rw [if_pos hc]
      exact ⟨_, rfl⟩
    · rw [if_neg hc]
      rcases api with u | data
      · exact ⟨_, rfl⟩
      · rcases hrec : data.records with _ | rs
        · simp only [hrec]
          exact ⟨_, rfl⟩
        · by_cases hlen : 0 < rs.length
          · simp only [hrec, if_pos hlen]
            exact ⟨_, rfl⟩
          · simp only [hrec, if_neg hlen]
            exact ⟨_, rfl⟩
  · intro hapi
    subst hapi
    unfold fetchDistrictData
    rw [if_neg (by simp)]
  · intro data hapi hcase
    subst hapi
    unfold fetchDistrictData
    rw [if_neg (by simp)]
    rcases hcase with hrec | hrec
    · simp only [hrec]
    · simp only [hrec, List.length_nil, lt_irrefl, if_false]
  · intro data rs hapi hrec hne
    subst hapi
    unfold fetchDistrictData
    rw [if_neg (by simp)]
    have hlen : 0 < rs.length := List.length_pos.mpr hne
    simp only [hrec, if_pos hlen]
  · intro res h
    unfold getFromDatabase at h
    rcases hfd : findDistrictByCode ds code with _ | d
    · rw [hfd] at h
      cases h
    · rw [hfd] at h
      by_cases he : (s.filter (fun row => row.districtCode = code)).isEmpty = true
      · rw [if_pos he] at h
        cases h
      · rw [if_neg he] at h
        have hres := Option.some.inj h
        rw [← hres]
        rfl
  · intro h
    unfold getFromDatabase
    rw [h]
  · intro h
    unfold getFromDatabase
    rcases hfd : findDistrictByCode ds code with _ | d
    · rfl
    · rw [if_pos h]

/-- Witness for C10: API failure with a known district that has one
persisted row — the database fallback is returned. -/
theorem fetch_district_data_total_fallback_witness :
    fetchDistrictData Option.none false (.error ()) [districtAlpha] 2026 "A01" [rowAlpha]
      = .ok (getFromDatabase [districtAlpha] "A01" [rowAlpha], [rowAlpha]) :=
  (fetch_district_data_total_fallback Option.none false (.error ())
    [districtAlpha] 2026 "A01" [rowAlpha]).2.1 rfl

end MG
